import Mathlib

/-!
Verification of the resilient HTTP client layer of the `clientry`
repository: the circuit breaker and token-bucket rate limiter of
`playground/client/advanced_demo.py` (`ResilientClient`), the endpoint
descriptors of `playground/client/httpbin_client.py` and
`playground/client/endpoints.py`, and the path-template rendering and
retry semantics that the spec attributes to the `clientry` core.

Time values (Python `time.time()` floats) are modelled as rationals; the
individual `time.time()` reads of a method are passed in as explicit
parameters.  The outcome of the underlying HTTP call is passed in as a
value of `CallOutcome`.
-/

namespace Clientry

/-- The `CircuitBreakerState` dataclass of `advanced_demo.py` (lines
31-37).  `state` is the literal Python string: `"closed"`, `"open"` or
`"half_open"`. -/
structure CircuitBreakerState where
  failures : Nat
  last_failure_time : ℚ
  state : String
  failure_threshold : Nat
  recovery_timeout : ℚ
deriving DecidableEq, Repr

/-- The dataclass defaults: `failures = 0`, `last_failure_time = 0.0`,
`state = "closed"`, `failure_threshold = 5`, `recovery_timeout = 60.0`. -/
def CircuitBreakerState.init : CircuitBreakerState :=
  { failures := 0, last_failure_time := 0, state := "closed",
    failure_threshold := 5, recovery_timeout := 60 }

/-- Result of `_check_circuit_breaker`: either the call is admitted (with
the possibly-updated breaker, for the lazy `open → half_open` transition)
or the method raises `PermanentError("Circuit breaker OPEN - failing
fast")`, modelled as `rejected`. -/
inductive CheckResult where
  | allowed (cb : CircuitBreakerState)
  | rejected
deriving DecidableEq, Repr

/-- `ResilientClient._check_circuit_breaker` (lines 66-74), with the
`time.time()` read passed as `now`.  If the state is `"open"` and more
than `recovery_timeout` has elapsed since `last_failure_time`, the state
becomes `"half_open"` and the call is admitted; if the state is `"open"`
and the timeout has not elapsed, the call is rejected; any other state is
admitted unchanged. -/
def check_circuit_breaker (cb : CircuitBreakerState) (now : ℚ) : CheckResult :=
  if cb.state = "open" then
    if now - cb.last_failure_time > cb.recovery_timeout then
      .allowed { cb with state := "half_open" }
    else
      .rejected
  else
    .allowed cb

/-- The failure path of `echo_json_resilient` (lines 104-109): increment
`failures`, stamp `last_failure_time`, and open the circuit once
`failures >= failure_threshold`. -/
def record_failure (cb : CircuitBreakerState) (now : ℚ) : CircuitBreakerState :=
  let cb' := { cb with failures := cb.failures + 1, last_failure_time := now }
  if cb'.failures ≥ cb'.failure_threshold then { cb' with state := "open" } else cb'

/-- The rate-limiter fields of `ResilientClient.__init__` (lines 44-46):
`_rate_limit_tokens = 10.0`, `_last_token_refresh = time.time()`,
`_token_refresh_rate = 1.0`. -/
structure RateLimiterState where
  rate_limit_tokens : ℚ
  last_token_refresh : ℚ
  token_refresh_rate : ℚ
deriving DecidableEq, Repr

/-- Initial limiter state, with the constructor-time `time.time()` passed
as `now`. -/
def RateLimiterState.init (now : ℚ) : RateLimiterState :=
  { rate_limit_tokens := 10, last_token_refresh := now, token_refresh_rate := 1 }

/-- Result of one `_rate_limit` call: the updated limiter fields and the
duration passed to `asyncio.sleep` (`0` when no sleep happens). -/
structure RateLimitResult where
  limiter : RateLimiterState
  wait_time : ℚ
deriving DecidableEq, Repr

/-- `ResilientClient._rate_limit` (lines 76-87), with the `time.time()`
read passed as `now`: refill `tokens := min 10 (tokens + elapsed * rate)`
and stamp `_last_token_refresh := now`; if the refilled amount is below
one token, sleep for `(1 - tokens) / rate`; finally deduct one token
(the code deducts unconditionally, after the sleep, without clamping at
zero). -/
def rate_limit (rl : RateLimiterState) (now : ℚ) : RateLimitResult :=
  let elapsed := now - rl.last_token_refresh
  let tokens := min 10 (rl.rate_limit_tokens + elapsed * rl.token_refresh_rate)
  let wait := if tokens < 1 then (1 - tokens) / rl.token_refresh_rate else 0
  { limiter := { rate_limit_tokens := tokens - 1, last_token_refresh := now,
                 token_refresh_rate := rl.token_refresh_rate },
    wait_time := wait }

/-- Final outcome of the underlying `HTTPBinClient` call as observed by
the `ResilientClient` wrapper: the call returned a response, raised a
clientry `RetryableError` or `PermanentError` (carrying a status code),
or raised any other exception (cancellation, an unwrapped transport
exception, ...), which the `except (RetryableError, PermanentError)`
handler does not catch. -/
inductive CallOutcome where
  | success
  | retryableError (status : Nat)
  | permanentError (status : Nat)
  | otherException
deriving DecidableEq, Repr

/-- The outcomes that the handler of `echo_json_resilient` counts as
circuit-breaker failures. -/
def CallOutcome.isFailure : CallOutcome → Bool
  | .retryableError _ => true
  | .permanentError _ => true
  | _ => false

/-- Errors surfaced by the resilient wrapper, mirroring the exceptions of
`advanced_demo.py`: `circuitOpen` is the `PermanentError("Circuit breaker
OPEN - failing fast")` raised by `_check_circuit_breaker` (the spec's
`CircuitOpenError`); `retryable` / `permanent` are the clientry
`RetryableError` / `PermanentError` re-raised from the underlying call;
`other` is any other propagated exception. -/
inductive CallError where
  | circuitOpen
  | retryable (status : Nat)
  | permanent (status : Nat)
  | other
deriving DecidableEq, Repr

/-- Observable result of one invocation of a `ResilientClient` method:
the surfaced error (`none` on success), whether the underlying network
call was made (`attempted`), the breaker and limiter states after the
invocation, and the duration slept inside `_rate_limit`. -/
structure CallResult where
  error : Option CallError
  attempted : Bool
  breaker : CircuitBreakerState
  limiter : RateLimiterState
  wait_time : ℚ
deriving DecidableEq, Repr

/-- `ResilientClient.echo_json_resilient` (lines 89-111).  The three
`time.time()` reads are `tCheck` (inside `_check_circuit_breaker`),
`tLimit` (inside `_rate_limit`) and `tFail` (stamped on a failure
outcome); the final outcome of `self._client.echo_json(data)` is the
`outcome` parameter.  A rejected admission check raises before the rate
limiter runs and before any attempt is made; a success from
`"half_open"` closes the circuit and resets `failures`; a
`RetryableError` / `PermanentError` is recorded through `record_failure`
and re-raised; any other exception propagates without touching the
breaker. -/
def echo_json_resilient (cb : CircuitBreakerState) (rl : RateLimiterState)
    (tCheck tLimit tFail : ℚ) (outcome : CallOutcome) : CallResult :=
  match check_circuit_breaker cb tCheck with
  | .rejected =>
      { error := some .circuitOpen, attempted := false, breaker := cb,
        limiter := rl, wait_time := 0 }
  | .allowed cb1 =>
      let r := rate_limit rl tLimit
      match outcome with
      | .success =>
          let cb2 :=
            if cb1.state = "half_open" then
              { cb1 with state := "closed", failures := 0 }
            else cb1
          { error := none, attempted := true, breaker := cb2,
            limiter := r.limiter, wait_time := r.wait_time }
      | .retryableError s =>
          { error := some (.retryable s), attempted := true,
            breaker := record_failure cb1 tFail, limiter := r.limiter,
            wait_time := r.wait_time }
      | .permanentError s =>
          { error := some (.permanent s), attempted := true,
            breaker := record_failure cb1 tFail, limiter := r.limiter,
            wait_time := r.wait_time }
      | .otherException =>
          { error := some .other, attempted := true, breaker := cb1,
            limiter := r.limiter, wait_time := r.wait_time }

/-- `ResilientClient.test_status` (lines 63-64): a pure delegation to
`self._client.test_status(status_code, max_retry_attempts)` — the method
body references neither `_circuit_breaker` nor the rate-limiter fields,
so the breaker and limiter are returned untouched, no admission check
runs (`attempted` is `true` whatever the breaker state), and no
rate-limit sleep occurs. -/
def ResilientClient.test_status (cb : CircuitBreakerState)
    (rl : RateLimiterState) (outcome : CallOutcome) : CallResult :=
  { error :=
      match outcome with
      | .success => none
      | .retryableError s => some (.retryable s)
      | .permanentError s => some (.permanent s)
      | .otherException => some .other,
    attempted := true, breaker := cb, limiter := rl, wait_time := 0 }

/-- Folding `_rate_limit` over a sequence of call times. -/
def acquireSeq (rl : RateLimiterState) (ts : List ℚ) : RateLimiterState :=
  ts.foldl (fun s t => (rate_limit s t).limiter) rl

/-- `n` consecutive `_rate_limit` calls, all at the same time `t`
(an immediate burst). -/
def acquireN (rl : RateLimiterState) (t : ℚ) : Nat → RateLimiterState
  | 0 => rl
  | n + 1 => (rate_limit (acquireN rl t n) t).limiter

/-! ### Helper lemmas -/

theorem check_allowed_fields {cb cb1 : CircuitBreakerState} {now : ℚ}
    (h : check_circuit_breaker cb now = .allowed cb1) :
    cb1.failures = cb.failures ∧ cb1.last_failure_time = cb.last_failure_time ∧
    cb1.failure_threshold = cb.failure_threshold ∧
    cb1.recovery_timeout = cb.recovery_timeout ∧
    (cb.state ≠ "open" → cb1 = cb) := by
  unfold check_circuit_breaker at h
  split_ifs at h with h1 h2
  · injection h with h3
    subst h3
    exact ⟨rfl, rfl, rfl, rfl, fun hc => absurd h1 hc⟩
  · injection h with h3
    subst h3
    exact ⟨rfl, rfl, rfl, rfl, fun _ => rfl⟩

theorem check_not_open {cb : CircuitBreakerState} {now : ℚ}
    (h : cb.state ≠ "open") : check_circuit_breaker cb now = .allowed cb := by
  unfold check_circuit_breaker
  rw [if_neg h]

theorem echo_allowed_success {cb cb1 : CircuitBreakerState} {t1 : ℚ}
    (rl : RateLimiterState) (t2 t3 : ℚ)
    (h : check_circuit_breaker cb t1 = .allowed cb1) :
    echo_json_resilient cb rl t1 t2 t3 .success =
      { error := none, attempted := true,
        breaker := if cb1.state = "half_open"
                   then { cb1 with state := "closed", failures := 0 } else cb1,
        limiter := (rate_limit rl t2).limiter,
        wait_time := (rate_limit rl t2).wait_time } := by
  simp only [echo_json_resilient, h]

theorem echo_allowed_retryable {cb cb1 : CircuitBreakerState} {t1 : ℚ}
    (rl : RateLimiterState) (t2 t3 : ℚ) (s : Nat)
    (h : check_circuit_breaker cb t1 = .allowed cb1) :
    echo_json_resilient cb rl t1 t2 t3 (.retryableError s) =
      { error := some (.retryable s), attempted := true,
        breaker := record_failure cb1 t3,
        limiter := (rate_limit rl t2).limiter,
        wait_time := (rate_limit rl t2).wait_time } := by
  simp only [echo_json_resilient, h]

theorem echo_allowed_permanent {cb cb1 : CircuitBreakerState} {t1 : ℚ}
    (rl : RateLimiterState) (t2 t3 : ℚ) (s : Nat)
    (h : check_circuit_breaker cb t1 = .allowed cb1) :
    echo_json_resilient cb rl t1 t2 t3 (.permanentError s) =
      { error := some (.permanent s), attempted := true,
        breaker := record_failure cb1 t3,
        limiter := (rate_limit rl t2).limiter,
        wait_time := (rate_limit rl t2).wait_time } := by
  simp only [echo_json_resilient, h]

theorem echo_allowed_other {cb cb1 : CircuitBreakerState} {t1 : ℚ}
    (rl : RateLimiterState) (t2 t3 : ℚ)
    (h : check_circuit_breaker cb t1 = .allowed cb1) :
    echo_json_resilient cb rl t1 t2 t3 .otherException =
      { error := some .other, attempted := true, breaker := cb1,
        limiter := (rate_limit rl t2).limiter,
        wait_time := (rate_limit rl t2).wait_time } := by
  simp only [echo_json_resilient, h]

theorem echo_rejected {cb : CircuitBreakerState} {t1 : ℚ}
    (rl : RateLimiterState) (t2 t3 : ℚ) (o : CallOutcome)
    (h : check_circuit_breaker cb t1 = .rejected) :
    echo_json_resilient cb rl t1 t2 t3 o =
      { error := some .circuitOpen, attempted := false, breaker := cb,
        limiter := rl, wait_time := 0 } := by
  cases o <;> simp only [echo_json_resilient, h]

theorem record_failure_failures (cb : CircuitBreakerState) (t : ℚ) :
    (record_failure cb t).failures = cb.failures + 1 := by
  simp only [record_failure]
  split <;> rfl

/-- A single resilient call with a failure outcome, issued against a
breaker that is not `"open"`, records through `record_failure`. -/
theorem fail_step (cb : CircuitBreakerState) (rl : RateLimiterState)
    (t : ℚ) (s : Nat) (h : cb.state ≠ "open") :
    (echo_json_resilient cb rl t t t (.retryableError s)).breaker =
      record_failure cb t := by
  rw [echo_allowed_retryable rl t t s (check_not_open h)]

/-- The breaker after a sequence of resilient calls that all end in
`RetryableError(503)`, starting from the freshly-constructed breaker;
each call's `time.time()` reads are the corresponding entry of `ts`. -/
def fail_burst (rl : RateLimiterState) (ts : List ℚ) : CircuitBreakerState :=
  ts.foldl
    (fun b t => (echo_json_resilient b rl t t t (.retryableError 503)).breaker)
    CircuitBreakerState.init

/-! ### C3: open breaker fails fast, no attempt -/

/-- C3: if the circuit breaker is `"open"` and `recovery_timeout` has not
elapsed since `last_failure_time`, the admission check raises the
fast-fail circuit-open error (realized in the code as
`PermanentError("Circuit breaker OPEN - failing fast")`), no network call
is attempted, and neither breaker nor limiter state is touched. -/
theorem circuit_open_fast_fail (cb : CircuitBreakerState)
    (rl : RateLimiterState) (t1 t2 t3 : ℚ) (o : CallOutcome)
    (hopen : cb.state = "open")
    (ht : t1 - cb.last_failure_time ≤ cb.recovery_timeout) :
    echo_json_resilient cb rl t1 t2 t3 o =
      { error := some .circuitOpen, attempted := false, breaker := cb,
        limiter := rl, wait_time := 0 } := by
  have hc : check_circuit_breaker cb t1 = .rejected := by
    unfold check_circuit_breaker
    rw [if_pos hopen, if_neg (not_lt.mpr ht)]
  simp only [echo_json_resilient, hc]

/-- Witness for C3: a breaker that opened at time 0, checked at time 30
(before the 60-second recovery timeout), rejects the call with no
attempt. -/
theorem circuit_open_fast_fail_witness :
    echo_json_resilient ⟨5, 0, "open", 5, 60⟩ (RateLimiterState.init 0)
        30 30 30 .success =
      { error := some .circuitOpen, attempted := false,
        breaker := ⟨5, 0, "open", 5, 60⟩,
        limiter := RateLimiterState.init 0, wait_time := 0 } :=
  circuit_open_fast_fail _ _ _ _ _ _ rfl (by norm_num)

/-! ### C4: the rate-limiter acquire algorithm -/

/-- C4: each `_rate_limit` call refills to
`min 10 (tokens + elapsed * rate)`, stamps `last_token_refresh := now`,
sleeps for exactly `(1 - refilled) / rate` when the refilled amount is
below one token and does not sleep otherwise, and deducts exactly one
token in either case. -/
theorem rate_limit_acquire_algorithm (rl : RateLimiterState) (now : ℚ) :
    (min 10 (rl.rate_limit_tokens + (now - rl.last_token_refresh) * rl.token_refresh_rate) < 1 →
        (rate_limit rl now).wait_time =
          (1 - min 10 (rl.rate_limit_tokens +
            (now - rl.last_token_refresh) * rl.token_refresh_rate)) / rl.token_refresh_rate)
    ∧ (¬ min 10 (rl.rate_limit_tokens + (now - rl.last_token_refresh) * rl.token_refresh_rate) < 1 →
        (rate_limit rl now).wait_time = 0)
    ∧ (rate_limit rl now).limiter.rate_limit_tokens =
        min 10 (rl.rate_limit_tokens + (now - rl.last_token_refresh) * rl.token_refresh_rate) - 1
    ∧ (rate_limit rl now).limiter.last_token_refresh = now
    ∧ (rate_limit rl now).limiter.token_refresh_rate = rl.token_refresh_rate := by
  refine ⟨fun h => ?_, fun h => ?_, rfl, rfl, rfl⟩
  · simp only [rate_limit, if_pos h]
  · simp only [rate_limit, if_neg h]

/-- Witness for C4: an empty bucket acquired with no elapsed time sleeps
for exactly one second and deducts one token, going to `-1`. -/
theorem rate_limit_acquire_algorithm_witness :
    (rate_limit ⟨0, 0, 1⟩ 0).wait_time = (1 - min 10 ((0 : ℚ) + (0 - 0) * 1)) / 1
    ∧ (rate_limit ⟨0, 0, 1⟩ 0).limiter.rate_limit_tokens =
        min 10 ((0 : ℚ) + (0 - 0) * 1) - 1 :=
  ⟨(rate_limit_acquire_algorithm ⟨0, 0, 1⟩ 0).1 (by norm_num),
   (rate_limit_acquire_algorithm ⟨0, 0, 1⟩ 0).2.2.1⟩

/-! ### C9: `test_status` bypasses the resilience machinery -/

/-- C9: `ResilientClient.test_status` performs neither the
circuit-breaker admission check nor rate-limiter acquisition: whatever
the breaker state and the outcome, the breaker and limiter come back
untouched, no rate-limit sleep occurs, and the underlying call is always
attempted. -/
theorem test_status_bypasses_resilience (cb : CircuitBreakerState)
    (rl : RateLimiterState) (o : CallOutcome) :
    (ResilientClient.test_status cb rl o).breaker = cb
    ∧ (ResilientClient.test_status cb rl o).limiter = rl
    ∧ (ResilientClient.test_status cb rl o).wait_time = 0
    ∧ (ResilientClient.test_status cb rl o).attempted = true :=
  ⟨rfl, rfl, rfl, rfl⟩

/-! ### C10: non-clientry exceptions propagate -/

/-- Counterexample to C10 as stated: with an open breaker whose recovery
timeout has elapsed (5 failures recorded at time 0, call at time 100),
the admission check flips the state to `"half_open"` *before* the call;
when the call then raises a non-clientry exception, the invocation ends
with `state = "half_open" ≠ "open"`, so the breaker's state is not left
unchanged by the invocation. -/
theorem other_exception_changes_state :
    (echo_json_resilient ⟨5, 0, "open", 5, 60⟩ (RateLimiterState.init 0)
        100 100 100 .otherException).breaker.state ≠ "open" := by
  have hadm : check_circuit_breaker ⟨5, 0, "open", 5, 60⟩ 100 =
      .allowed ⟨5, 0, "half_open", 5, 60⟩ := by
    norm_num [check_circuit_breaker]
  rw [echo_allowed_other (RateLimiterState.init 0) 100 100 hadm]
  decide

/-- C10 (amended): if the underlying call raises an exception other than
`RetryableError` / `PermanentError`, it propagates to the caller and the
failure-recording logic is skipped: `failures` and `last_failure_time`
are unchanged, and the state equals whatever the admission check left it
(so it is fully unchanged whenever the breaker was not `"open"` on
entry). -/
theorem other_exception_propagates_amended (cb cb1 : CircuitBreakerState)
    (rl : RateLimiterState) (t1 t2 t3 : ℚ)
    (hadm : check_circuit_breaker cb t1 = .allowed cb1) :
    (echo_json_resilient cb rl t1 t2 t3 .otherException).error = some .other
    ∧ (echo_json_resilient cb rl t1 t2 t3 .otherException).attempted = true
    ∧ (echo_json_resilient cb rl t1 t2 t3 .otherException).breaker = cb1
    ∧ (echo_json_resilient cb rl t1 t2 t3 .otherException).breaker.failures = cb.failures
    ∧ (echo_json_resilient cb rl t1 t2 t3 .otherException).breaker.last_failure_time
        = cb.last_failure_time
    ∧ (cb.state ≠ "open" →
        (echo_json_resilient cb rl t1 t2 t3 .otherException).breaker = cb) := by
  have he := echo_allowed_other rl t2 t3 hadm
  obtain ⟨hf, hl, -, -, hs⟩ := check_allowed_fields hadm
  rw [he]
  exact ⟨rfl, rfl, rfl, hf, hl, fun hc => hs hc⟩

/-- Witness for C10 (amended): a closed breaker whose call raises a
cancellation-style exception comes back entirely unchanged. -/
theorem other_exception_propagates_amended_witness :
    (echo_json_resilient CircuitBreakerState.init (RateLimiterState.init 0)
        0 0 0 .otherException).error = some .other
    ∧ (echo_json_resilient CircuitBreakerState.init (RateLimiterState.init 0)
        0 0 0 .otherException).attempted = true
    ∧ (echo_json_resilient CircuitBreakerState.init (RateLimiterState.init 0)
        0 0 0 .otherException).breaker = CircuitBreakerState.init
    ∧ (echo_json_resilient CircuitBreakerState.init (RateLimiterState.init 0)
        0 0 0 .otherException).breaker.failures = CircuitBreakerState.init.failures
    ∧ (echo_json_resilient CircuitBreakerState.init (RateLimiterState.init 0)
        0 0 0 .otherException).breaker.last_failure_time
        = CircuitBreakerState.init.last_failure_time
    ∧ (CircuitBreakerState.init.state ≠ "open" →
        (echo_json_resilient CircuitBreakerState.init (RateLimiterState.init 0)
          0 0 0 .otherException).breaker = CircuitBreakerState.init) :=
  other_exception_propagates_amended CircuitBreakerState.init
    CircuitBreakerState.init (RateLimiterState.init 0) 0 0 0
    (check_not_open (by decide))

/-! ### C1: the circuit-breaker state-machine cycle -/

/-- C1: starting from the freshly-constructed breaker (closed, 0
failures, threshold 5, recovery timeout 60): four consecutive recorded
failures leave it closed with 4 failures; the fifth opens it and stamps
`last_failure_time`; while open, a call before the recovery timeout has
elapsed is rejected with the circuit-open error and no attempt; an
admission check strictly after the timeout transitions to half-open and
is allowed; a subsequent successful call from that state closes the
breaker and resets `failures` to 0. -/
theorem circuit_breaker_cycle (rl : RateLimiterState)
    (t1 t2 t3 t4 t5 tRej tAdm : ℚ)
    (hrej : tRej - t5 ≤ 60) (hadm : tAdm - t5 > 60) :
    fail_burst rl [t1, t2, t3, t4] = ⟨4, t4, "closed", 5, 60⟩
    ∧ fail_burst rl [t1, t2, t3, t4, t5] = ⟨5, t5, "open", 5, 60⟩
    ∧ (echo_json_resilient ⟨5, t5, "open", 5, 60⟩ rl tRej tRej tRej
        .success).error = some .circuitOpen
    ∧ (echo_json_resilient ⟨5, t5, "open", 5, 60⟩ rl tRej tRej tRej
        .success).attempted = false
    ∧ check_circuit_breaker ⟨5, t5, "open", 5, 60⟩ tAdm =
        .allowed ⟨5, t5, "half_open", 5, 60⟩
    ∧ (echo_json_resilient ⟨5, t5, "open", 5, 60⟩ rl tAdm tAdm tAdm
        .success).breaker = ⟨0, t5, "closed", 5, 60⟩ := by
  have s1 : (echo_json_resilient CircuitBreakerState.init rl t1 t1 t1
      (.retryableError 503)).breaker = ⟨1, t1, "closed", 5, 60⟩ := by
    rw [fail_step CircuitBreakerState.init rl t1 503 (by decide)]
    simp [record_failure, CircuitBreakerState.init]
  have s2 : (echo_json_resilient ⟨1, t1, "closed", 5, 60⟩ rl t2 t2 t2
      (.retryableError 503)).breaker = ⟨2, t2, "closed", 5, 60⟩ := by
    rw [fail_step ⟨1, t1, "closed", 5, 60⟩ rl t2 503 (by simp)]
    simp [record_failure]
  have s3 : (echo_json_resilient ⟨2, t2, "closed", 5, 60⟩ rl t3 t3 t3
      (.retryableError 503)).breaker = ⟨3, t3, "closed", 5, 60⟩ := by
    rw [fail_step ⟨2, t2, "closed", 5, 60⟩ rl t3 503 (by simp)]
    simp [record_failure]
  have s4 : (echo_json_resilient ⟨3, t3, "closed", 5, 60⟩ rl t4 t4 t4
      (.retryableError 503)).breaker = ⟨4, t4, "closed", 5, 60⟩ := by
    rw [fail_step ⟨3, t3, "closed", 5, 60⟩ rl t4 503 (by simp)]
    simp [record_failure]
  have s5 : (echo_json_resilient ⟨4, t4, "closed", 5, 60⟩ rl t5 t5 t5
      (.retryableError 503)).breaker = ⟨5, t5, "open", 5, 60⟩ := by
    rw [fail_step ⟨4, t4, "closed", 5, 60⟩ rl t5 503 (by simp)]
    simp [record_failure]
  have h4 : fail_burst rl [t1, t2, t3, t4] = ⟨4, t4, "closed", 5, 60⟩ := by
    simp only [fail_burst, List.foldl]
    rw [s1, s2, s3, s4]
  have h5 : fail_burst rl [t1, t2, t3, t4, t5] = ⟨5, t5, "open", 5, 60⟩ := by
    simp only [fail_burst, List.foldl]
    rw [s1, s2, s3, s4, s5]
  have hrj : check_circuit_breaker ⟨5, t5, "open", 5, 60⟩ tRej = .rejected := by
    simp [check_circuit_breaker, not_lt.mpr hrej]
  have had : check_circuit_breaker ⟨5, t5, "open", 5, 60⟩ tAdm =
      .allowed ⟨5, t5, "half_open", 5, 60⟩ := by
    simp [check_circuit_breaker, hadm]
  refine ⟨h4, h5, ?_, ?_, had, ?_⟩
  · rw [echo_rejected rl tRej tRej .success hrj]
  · rw [echo_rejected rl tRej tRej .success hrj]
  · rw [echo_allowed_success rl tAdm tAdm had]
    simp

/-- Witness for C1: the cycle at concrete times — five failures at times
1..5, a rejected call at time 30, recovery probe at time 100. -/
theorem circuit_breaker_cycle_witness :
    fail_burst (RateLimiterState.init 0) [1, 2, 3, 4] = ⟨4, 4, "closed", 5, 60⟩
    ∧ fail_burst (RateLimiterState.init 0) [1, 2, 3, 4, 5] = ⟨5, 5, "open", 5, 60⟩
    ∧ (echo_json_resilient ⟨5, 5, "open", 5, 60⟩ (RateLimiterState.init 0)
        30 30 30 .success).error = some .circuitOpen
    ∧ (echo_json_resilient ⟨5, 5, "open", 5, 60⟩ (RateLimiterState.init 0)
        30 30 30 .success).attempted = false
    ∧ check_circuit_breaker ⟨5, 5, "open", 5, 60⟩ 100 =
        .allowed ⟨5, 5, "half_open", 5, 60⟩
    ∧ (echo_json_resilient ⟨5, 5, "open", 5, 60⟩ (RateLimiterState.init 0)
        100 100 100 .success).breaker = ⟨0, 5, "closed", 5, 60⟩ :=
  circuit_breaker_cycle (RateLimiterState.init 0) 1 2 3 4 5 30 100
    (by norm_num) (by norm_num)

/-! ### C8: a closed-state success changes no breaker state -/

/-- C8: a successful call made while the breaker is closed returns the
breaker completely unchanged; moreover, for any breaker and outcome, if
an invocation changes `failures` at all then either the outcome was a
failure and `failures` rose by exactly one, or the outcome was a success
recorded from the half-open state, which closed the breaker and reset
`failures` to 0. -/
theorem closed_success_frame (cb : CircuitBreakerState)
    (rl : RateLimiterState) (t1 t2 t3 : ℚ) (hclosed : cb.state = "closed") :
    (echo_json_resilient cb rl t1 t2 t3 .success).breaker = cb
    ∧ ∀ (cb' : CircuitBreakerState) (o : CallOutcome),
        (echo_json_resilient cb' rl t1 t2 t3 o).breaker.failures ≠ cb'.failures →
          (o.isFailure = true
            ∧ (echo_json_resilient cb' rl t1 t2 t3 o).breaker.failures
                = cb'.failures + 1)
          ∨ (o = .success
            ∧ (echo_json_resilient cb' rl t1 t2 t3 o).breaker.failures = 0
            ∧ (echo_json_resilient cb' rl t1 t2 t3 o).breaker.state = "closed"
            ∧ ∃ cb1, check_circuit_breaker cb' t1 = .allowed cb1
                ∧ cb1.state = "half_open") := by
  constructor
  · rw [echo_allowed_success rl t2 t3
      (check_not_open (by rw [hclosed]; decide))]
    rw [if_neg (by rw [hclosed]; decide)]
  · intro cb' o hne
    rcases hchk : check_circuit_breaker cb' t1 with cb1 | -
    · have hf := (check_allowed_fields hchk).1
      cases o with
      | success =>
          rw [echo_allowed_success rl t2 t3 hchk] at hne ⊢
          by_cases hho : cb1.state = "half_open"
          · rw [if_pos hho] at hne ⊢
            exact Or.inr ⟨rfl, rfl, rfl, cb1, rfl, hho⟩
          · rw [if_neg hho] at hne
            exact absurd hf hne
      | retryableError s =>
          rw [echo_allowed_retryable rl t2 t3 s hchk] at hne ⊢
          exact Or.inl ⟨rfl, by rw [record_failure_failures, hf]⟩
      | permanentError s =>
          rw [echo_allowed_permanent rl t2 t3 s hchk] at hne ⊢
          exact Or.inl ⟨rfl, by rw [record_failure_failures, hf]⟩
      | otherException =>
          rw [echo_allowed_other rl t2 t3 hchk] at hne
          exact absurd hf hne
    · rw [echo_rejected rl t2 t3 o hchk] at hne
      exact absurd rfl hne

/-- Witness for C8: the fresh (closed) breaker is untouched by a
success, and a concrete closed breaker with 4 failures goes to exactly 5
on a retryable failure. -/
theorem closed_success_frame_witness :
    (echo_json_resilient CircuitBreakerState.init (RateLimiterState.init 0)
        0 0 0 .success).breaker = CircuitBreakerState.init
    ∧ (((CallOutcome.retryableError 503).isFailure = true
        ∧ (echo_json_resilient ⟨4, 0, "closed", 5, 60⟩ (RateLimiterState.init 0)
            0 0 0 (.retryableError 503)).breaker.failures
          = (⟨4, 0, "closed", 5, 60⟩ : CircuitBreakerState).failures + 1)
      ∨ (CallOutcome.retryableError 503 = .success
        ∧ (echo_json_resilient ⟨4, 0, "closed", 5, 60⟩ (RateLimiterState.init 0)
            0 0 0 (.retryableError 503)).breaker.failures = 0
        ∧ (echo_json_resilient ⟨4, 0, "closed", 5, 60⟩ (RateLimiterState.init 0)
            0 0 0 (.retryableError 503)).breaker.state = "closed"
        ∧ ∃ cb1, check_circuit_breaker ⟨4, 0, "closed", 5, 60⟩ (0 : ℚ) = .allowed cb1
            ∧ cb1.state = "half_open")) :=
  ⟨(closed_success_frame CircuitBreakerState.init (RateLimiterState.init 0)
      0 0 0 rfl).1,
   (closed_success_frame CircuitBreakerState.init (RateLimiterState.init 0)
      0 0 0 rfl).2 ⟨4, 0, "closed", 5, 60⟩ (.retryableError 503)
      (by
        rw [fail_step ⟨4, 0, "closed", 5, 60⟩ (RateLimiterState.init 0) 0 503
          (by decide), record_failure_failures]
        decide)⟩

/-! ### C2: rate-limiter token bounds and pacing -/

/-- In an immediate burst at time 0 starting from the freshly-initialized
bucket, the token count after `k` acquires is exactly `10 - k` — in
particular it keeps dropping below zero once the bucket is exhausted,
because `_rate_limit` deducts unconditionally. -/
theorem acquireN_burst (k : Nat) :
    acquireN (RateLimiterState.init 0) 0 k = ⟨10 - (k : ℚ), 0, 1⟩ := by
  induction k with
  | zero => simp [acquireN, RateLimiterState.init]
  | succ n ih =>
      have hdef : acquireN (RateLimiterState.init 0) 0 (n + 1)
          = (rate_limit (acquireN (RateLimiterState.init 0) 0 n) 0).limiter := rfl
      rw [hdef, ih]
      have hle : (10 : ℚ) - n + (0 - 0) * 1 ≤ 10 := by
        have : (0 : ℚ) ≤ n := Nat.cast_nonneg n
        linarith
      simp only [rate_limit, min_eq_right hle]
      have : (10 : ℚ) - ↑(n + 1) = 10 - ↑n + (0 - 0) * 1 - 1 := by
        push_cast
        ring
      rw [this]

/-- Folding `_rate_limit` over any sequence of call times never pushes
the token count above the capacity 10 (the refill is clamped by
`min 10 _` and each call only deducts). -/
theorem acquireSeq_tokens_le (ts : List ℚ) :
    ∀ rl : RateLimiterState, rl.rate_limit_tokens ≤ 10 →
      (acquireSeq rl ts).rate_limit_tokens ≤ 10 := by
  induction ts with
  | nil => intro rl h; exact h
  | cons t ts ih =>
      intro rl h
      have hdef : acquireSeq rl (t :: ts)
          = acquireSeq (rate_limit rl t).limiter ts := rfl
      rw [hdef]
      apply ih
      have hval : (rate_limit rl t).limiter.rate_limit_tokens
          = min 10 (rl.rate_limit_tokens
              + (t - rl.last_token_refresh) * rl.token_refresh_rate) - 1 := rfl
      rw [hval]
      have := min_le_left (10 : ℚ)
        (rl.rate_limit_tokens + (t - rl.last_token_refresh) * rl.token_refresh_rate)
      linarith

/-- Counterexample to C2 as stated: after 11 immediate acquires from a
full bucket the token count is `-1 < 0` — `_rate_limit` deducts one
token after its sleep without clamping, so the count does go negative. -/
theorem rate_limiter_tokens_negative :
    (acquireN (RateLimiterState.init 0) 0 11).rate_limit_tokens < 0 := by
  rw [acquireN_burst 11]
  norm_num

/-- C2 (amended): with capacity 10 and refill rate 1, the token count
never exceeds 10 over any acquire sequence; from a full bucket each of
the first 10 immediate acquires suspends no caller, and the 11th
suspends for exactly 1 second — but it then still deducts a token,
leaving the count at `-1`, so the count is not bounded below by zero. -/
theorem rate_limiter_bounds_and_pacing (t0 : ℚ) (ts : List ℚ) (k : Nat)
    (hk : k < 10) :
    (acquireSeq (RateLimiterState.init t0) ts).rate_limit_tokens ≤ 10
    ∧ (rate_limit (acquireN (RateLimiterState.init 0) 0 k) 0).wait_time = 0
    ∧ (rate_limit (acquireN (RateLimiterState.init 0) 0 10) 0).wait_time = 1
    ∧ (acquireN (RateLimiterState.init 0) 0 11).rate_limit_tokens = -1 := by
  refine ⟨acquireSeq_tokens_le ts _ (by norm_num [RateLimiterState.init]),
    ?_, ?_, ?_⟩
  · rw [acquireN_burst k]
    have hk9 : (k : ℚ) ≤ 9 := by
      have : k ≤ 9 := Nat.lt_succ_iff.mp hk
      exact_mod_cast this
    simp only [rate_limit]
    split_ifs with h
    · exfalso
      rcases min_lt_iff.mp h with h | h
      · norm_num at h
      · linarith
    · rfl
  · rw [acquireN_burst 10]
    norm_num [rate_limit]
  · rw [acquireN_burst 11]
    norm_num

/-- Witness for C2 (amended) at the empty acquire sequence and the first
burst acquire. -/
theorem rate_limiter_bounds_and_pacing_witness :
    (acquireSeq (RateLimiterState.init 0) []).rate_limit_tokens ≤ 10
    ∧ (rate_limit (acquireN (RateLimiterState.init 0) 0 0) 0).wait_time = 0
    ∧ (rate_limit (acquireN (RateLimiterState.init 0) 0 10) 0).wait_time = 1
    ∧ (acquireN (RateLimiterState.init 0) 0 11).rate_limit_tokens = -1 :=
  rate_limiter_bounds_and_pacing 0 [] 0 (by norm_num)

/-! ### C5: the breaker records one outcome per call -/

/-- Modelled from the spec: the retry loop of the clientry core
`BaseClient` (spec §4.3, §4.6), which is not under `src/`.  Attempts are
consumed in order starting at index `i` with `fuel` further attempts
allowed: a success, a `PermanentError` or a non-clientry exception is
final immediately; a `RetryableError` is retried while fuel remains and
is surfaced as the call's final outcome once the ceiling is reached. -/
def finalOutcomeGo (attempts : Nat → CallOutcome) : Nat → Nat → CallOutcome
  | i, 0 => attempts i
  | i, fuel + 1 =>
    match attempts i with
    | .retryableError _ => finalOutcomeGo attempts (i + 1) fuel
    | o => o

/-- Modelled from the spec: the final outcome of one call whose attempts
yield `attempts 0, attempts 1, ...`, under a retry ceiling of
`max_attempts` (spec §4.3: `max_attempts = N` allows `N+1` attempts). -/
def finalOutcome (attempts : Nat → CallOutcome) (max_attempts : Nat) : CallOutcome :=
  finalOutcomeGo attempts 0 max_attempts

/-- Counterexample to C5 as stated: a successful call recorded from the
half-open state (reachable after 5 failures and an elapsed recovery
timeout) resets `failures` from 5 to 0 — a change, not an increment
"by 0". -/
theorem breaker_half_open_success_resets :
    (echo_json_resilient ⟨5, 0, "half_open", 5, 60⟩ (RateLimiterState.init 0)
        0 0 0 .success).breaker.failures ≠
      (⟨5, 0, "half_open", 5, 60⟩ : CircuitBreakerState).failures := by
  rw [echo_allowed_success (RateLimiterState.init 0) 0 0
    (check_not_open (by decide)), if_pos rfl]
  decide

/-- C5 (amended): the breaker records exactly one outcome per call — the
final outcome of the internal retry loop — regardless of how many
attempts that loop made.  On a final failure the failure count rises by
exactly 1; on a final success it is unchanged unless the call was
admitted from the half-open state, in which case it is reset to 0; and
any two attempt sequences with the same final outcome produce identical
results. -/
theorem breaker_observes_final_outcome (cb cb1 : CircuitBreakerState)
    (rl : RateLimiterState) (t1 t2 t3 : ℚ)
    (attempts : Nat → CallOutcome) (maxA : Nat)
    (hadm : check_circuit_breaker cb t1 = .allowed cb1) :
    ((finalOutcome attempts maxA).isFailure = true →
        (echo_json_resilient cb rl t1 t2 t3
            (finalOutcome attempts maxA)).breaker.failures = cb.failures + 1)
    ∧ (finalOutcome attempts maxA = .success →
        (cb1.state = "half_open" →
            (echo_json_resilient cb rl t1 t2 t3
              (finalOutcome attempts maxA)).breaker.failures = 0)
        ∧ (cb1.state ≠ "half_open" →
            (echo_json_resilient cb rl t1 t2 t3
              (finalOutcome attempts maxA)).breaker.failures = cb.failures))
    ∧ ∀ (attempts2 : Nat → CallOutcome) (maxB : Nat),
        finalOutcome attempts2 maxB = finalOutcome attempts maxA →
        echo_json_resilient cb rl t1 t2 t3 (finalOutcome attempts2 maxB)
          = echo_json_resilient cb rl t1 t2 t3 (finalOutcome attempts maxA) := by
  refine ⟨?_, ?_, fun a2 mb h => by rw [h]⟩
  · intro hfail
    cases hf : finalOutcome attempts maxA with
    | success => rw [hf] at hfail; simp [CallOutcome.isFailure] at hfail
    | otherException => rw [hf] at hfail; simp [CallOutcome.isFailure] at hfail
    | retryableError s =>
        rw [echo_allowed_retryable rl t2 t3 s hadm, record_failure_failures,
          (check_allowed_fields hadm).1]
    | permanentError s =>
        rw [echo_allowed_permanent rl t2 t3 s hadm, record_failure_failures,
          (check_allowed_fields hadm).1]
  · intro hsucc
    rw [hsucc, echo_allowed_success rl t2 t3 hadm]
    constructor
    · intro hho
      rw [if_pos hho]
    · intro hho
      rw [if_neg hho]
      exact (check_allowed_fields hadm).1

/-- Witness for C5 (amended): three retryable attempts under a retry
ceiling of 2 end as a single retryable failure, and a closed breaker
with 2 prior failures moves to exactly 3. -/
theorem breaker_observes_final_outcome_witness :
    ((finalOutcome (fun _ => .retryableError 503) 2).isFailure = true →
        (echo_json_resilient ⟨2, 0, "closed", 5, 60⟩ (RateLimiterState.init 0)
            0 0 0 (finalOutcome (fun _ => .retryableError 503) 2)).breaker.failures
          = (⟨2, 0, "closed", 5, 60⟩ : CircuitBreakerState).failures + 1)
    ∧ (finalOutcome (fun _ => .retryableError 503) 2 = .success →
        ((⟨2, 0, "closed", 5, 60⟩ : CircuitBreakerState).state = "half_open" →
            (echo_json_resilient ⟨2, 0, "closed", 5, 60⟩ (RateLimiterState.init 0)
              0 0 0 (finalOutcome (fun _ => .retryableError 503) 2)).breaker.failures = 0)
        ∧ ((⟨2, 0, "closed", 5, 60⟩ : CircuitBreakerState).state ≠ "half_open" →
            (echo_json_resilient ⟨2, 0, "closed", 5, 60⟩ (RateLimiterState.init 0)
              0 0 0 (finalOutcome (fun _ => .retryableError 503) 2)).breaker.failures
              = (⟨2, 0, "closed", 5, 60⟩ : CircuitBreakerState).failures))
    ∧ ∀ (attempts2 : Nat → CallOutcome) (maxB : Nat),
        finalOutcome attempts2 maxB = finalOutcome (fun _ => .retryableError 503) 2 →
        echo_json_resilient ⟨2, 0, "closed", 5, 60⟩ (RateLimiterState.init 0)
            0 0 0 (finalOutcome attempts2 maxB)
          = echo_json_resilient ⟨2, 0, "closed", 5, 60⟩ (RateLimiterState.init 0)
            0 0 0 (finalOutcome (fun _ => .retryableError 503) 2) :=
  breaker_observes_final_outcome ⟨2, 0, "closed", 5, 60⟩ ⟨2, 0, "closed", 5, 60⟩
    (RateLimiterState.init 0) 0 0 0 (fun _ => .retryableError 503) 2
    (check_not_open (by decide))

/-! ### C6: endpoint descriptors are never mutated -/

/-- Modelled from the spec: `EndpointConfig` of the clientry core (not
under `src/`) — immutable metadata binding a path template, an HTTP
method and the request/response value types of one operation (spec §3).
The two type parameters are carried as type-name tags. -/
structure EndpointConfig where
  path : String
  method : String
  request_type : String
  response_type : String
deriving DecidableEq, Repr

/-- Modelled from the spec: the pydantic `model_copy` call, with a
`path` update, as used by the callers in `src/` — it produces a fresh
descriptor with `path` replaced and every other field copied, leaving
the original value untouched (spec §3: substitute into a copy, never
mutate the shared descriptor). -/
def model_copy_path (e : EndpointConfig) (p : String) : EndpointConfig :=
  { e with path := p }

/-- `HTTPBinClient.STATUS_ENDPOINT` (`httpbin_client.py` lines 82-87). -/
def HTTPBinClient.STATUS_ENDPOINT : EndpointConfig :=
  { path := "/status/{code}", method := "GET",
    request_type := "EmptyRequest", response_type := "StatusResponse" }

/-- `HTTPBinClient.DELAY_ENDPOINT` (`httpbin_client.py` lines 75-80). -/
def HTTPBinClient.DELAY_ENDPOINT : EndpointConfig :=
  { path := "/delay/{seconds}", method := "GET",
    request_type := "EmptyRequest", response_type := "DelayResponse" }

/-- `GitHubClient.USER_ENDPOINT` (`advanced_demo.py` lines 134-139). -/
def GitHubClient.USER_ENDPOINT : EndpointConfig :=
  { path := "/users/{username}", method := "GET",
    request_type := "EmptyRequest", response_type := "GitHubUser" }

/-- The per-call descriptor built by `HTTPBinClient.test_status`
(`httpbin_client.py` line 149): a copy of the shared `STATUS_ENDPOINT`
with the concrete path substituted. -/
def test_status_endpoint (status_code : Int) : EndpointConfig :=
  model_copy_path HTTPBinClient.STATUS_ENDPOINT ("/status/" ++ toString status_code)

/-- The per-call descriptor built by `HTTPBinClient.test_delay`
(`httpbin_client.py` line 161). -/
def test_delay_endpoint (seconds : Int) : EndpointConfig :=
  model_copy_path HTTPBinClient.DELAY_ENDPOINT ("/delay/" ++ toString seconds)

/-- The per-call descriptor built by `GitHubClient.get_user`
(`advanced_demo.py` line 148). -/
def get_user_endpoint (username : String) : EndpointConfig :=
  model_copy_path GitHubClient.USER_ENDPOINT ("/users/" ++ username)

/-- C6: every per-call path substitution produces a copy of the shared
descriptor that differs only in `path` (method and the request/response
types are those of the shared descriptor), and the shared descriptors
themselves still hold exactly their construction-time field values, for
any call argument. -/
theorem descriptors_not_mutated :
    (∀ status_code : Int,
        test_status_endpoint status_code
          = { HTTPBinClient.STATUS_ENDPOINT with
              path := "/status/" ++ toString status_code }
        ∧ (test_status_endpoint status_code).method
            = HTTPBinClient.STATUS_ENDPOINT.method
        ∧ (test_status_endpoint status_code).request_type
            = HTTPBinClient.STATUS_ENDPOINT.request_type
        ∧ (test_status_endpoint status_code).response_type
            = HTTPBinClient.STATUS_ENDPOINT.response_type)
    ∧ (∀ seconds : Int,
        test_delay_endpoint seconds
          = { HTTPBinClient.DELAY_ENDPOINT with
              path := "/delay/" ++ toString seconds })
    ∧ (∀ username : String,
        get_user_endpoint username
          = { GitHubClient.USER_ENDPOINT with path := "/users/" ++ username })
    ∧ HTTPBinClient.STATUS_ENDPOINT
        = ⟨"/status/{code}", "GET", "EmptyRequest", "StatusResponse"⟩
    ∧ HTTPBinClient.DELAY_ENDPOINT
        = ⟨"/delay/{seconds}", "GET", "EmptyRequest", "DelayResponse"⟩
    ∧ GitHubClient.USER_ENDPOINT
        = ⟨"/users/{username}", "GET", "EmptyRequest", "GitHubUser"⟩ :=
  ⟨fun _ => ⟨rfl, rfl, rfl, rfl⟩, fun _ => rfl, fun _ => rfl, rfl, rfl, rfl⟩

/-! ### C7: strict path-template rendering -/

/-- Modelled from the spec: the `TemplateError` of the clientry core
(spec §4.1, §7), raised when a path-parameter binding does not exactly
match the template's placeholders — in either direction. -/
inductive TemplateError where
  | missingPlaceholder (name : String)
  | extraKey (name : String)
deriving DecidableEq, Repr

/-- First binding for `name` in a path-parameter list. -/
def findParam (params : List (String × String)) (name : String) : Option String :=
  match params with
  | [] => none
  | kv :: rest => if kv.1 = name then some kv.2 else findParam rest name

/-- Modelled from the spec: extraction of the `{name}` placeholders of a
path template (clientry core rendering, not under `src/`).  `fuel`
bounds the recursion by the number of characters remaining. -/
def placeholdersFuel : Nat → List Char → List String
  | 0, _ => []
  | _, [] => []
  | fuel + 1, c :: rest =>
    if c = '{' then
      String.mk (rest.takeWhile (fun d => d != '}'))
        :: placeholdersFuel fuel (rest.dropWhile (fun d => d != '}')).tail
    else
      placeholdersFuel fuel rest

/-- The placeholder names of a template, in order of occurrence. -/
def placeholders (template : String) : List String :=
  placeholdersFuel template.data.length template.data

/-- Modelled from the spec: the substitution pass of `render` — copy
literal characters, replace each `{name}` placeholder by its binding,
and fail with `missingPlaceholder` when a placeholder has no binding. -/
def renderCharsFuel (params : List (String × String)) :
    Nat → List Char → Except TemplateError (List Char)
  | 0, _ => .ok []
  | _, [] => .ok []
  | fuel + 1, c :: rest =>
    if c = '{' then
      match findParam params (String.mk (rest.takeWhile (fun d => d != '}'))) with
      | none => .error (.missingPlaceholder
          (String.mk (rest.takeWhile (fun d => d != '}'))))
      | some v =>
        match renderCharsFuel params fuel (rest.dropWhile (fun d => d != '}')).tail with
        | .error e => .error e
        | .ok out => .ok (v.data ++ out)
    else
      match renderCharsFuel params fuel rest with
      | .error e => .error e
      | .ok out => .ok (c :: out)

/-- The strict check of the extra direction: the first supplied binding
whose key matches no placeholder of the template. -/
def extraKeyCheck (template : String) (params : List (String × String)) :
    Option (String × String) :=
  params.find? (fun kv => decide (kv.1 ∉ placeholders template))

/-- The substitution pass applied to the whole template. -/
def renderCore (template : String) (params : List (String × String)) :
    Except TemplateError (List Char) :=
  renderCharsFuel params template.data.length template.data

/-- Modelled from the spec: `render(path_params) -> concrete_path` of
the clientry core `EndpointDescriptor` (spec §4.1), strict in both
directions — a supplied key matching no placeholder is an `extraKey`
error, and a placeholder with no binding is a `missingPlaceholder`
error. -/
def render (template : String) (params : List (String × String)) :
    Except TemplateError String :=
  match extraKeyCheck template params with
  | some kv => .error (.extraKey kv.1)
  | none =>
    match renderCore template params with
    | .error e => .error e
    | .ok out => .ok (String.mk out)

example : placeholders "/status/{code}" = ["code"] := by decide
example : placeholders "/users/{username}/x/{repo}" = ["username", "repo"] := by decide
example : render "/status/{code}" [("code", "503")] = .ok "/status/503" := rfl
example : render "/status/{code}" [] = .error (.missingPlaceholder "code") := rfl
example : render "/status/{code}" [("code", "503"), ("x", "1")]
    = .error (.extraKey "x") := rfl

theorem length_tail_bound (rest : List Char) :
    ((rest.dropWhile (fun d => d != '}')).tail).length ≤ rest.length := by
  have h1 : (rest.dropWhile (fun d => d != '}')).length ≤ rest.length := by
    induction rest with
    | nil => simp
    | cons c r ih =>
        rw [List.dropWhile_cons]
        split
        · exact le_trans ih (Nat.le_succ _)
        · exact le_refl _
  rw [List.length_tail]
  omega

/-- If every placeholder of the remaining template has a binding, the
substitution pass succeeds. -/
theorem renderCharsFuel_ok (params : List (String × String)) :
    ∀ (fuel : Nat) (l : List Char), l.length ≤ fuel →
      (∀ p ∈ placeholdersFuel fuel l, (findParam params p).isSome) →
      ∃ out, renderCharsFuel params fuel l = .ok out := by
  intro fuel
  induction fuel with
  | zero =>
      intro l _ _
      cases l with
      | nil => exact ⟨[], rfl⟩
      | cons c rest => exact ⟨[], rfl⟩
  | succ fuel ih =>
      intro l hl hb
      cases l with
      | nil => exact ⟨[], rfl⟩
      | cons c rest =>
          have hlrest : rest.length ≤ fuel := by
            simp only [List.length_cons] at hl
            omega
          by_cases hc : c = '{'
          · have hmem : String.mk (rest.takeWhile (fun d => d != '}'))
                ∈ placeholdersFuel (fuel + 1) (c :: rest) := by
              simp [placeholdersFuel, hc]
            have hname := hb _ hmem
            obtain ⟨v, hv⟩ := Option.isSome_iff_exists.mp hname
            have hlen : ((rest.dropWhile (fun d => d != '}')).tail).length ≤ fuel :=
              le_trans (length_tail_bound rest) hlrest
            have hbrec : ∀ p ∈ placeholdersFuel fuel
                ((rest.dropWhile (fun d => d != '}')).tail),
                (findParam params p).isSome := by
              intro p hp
              apply hb
              simp [placeholdersFuel, hc]
              exact Or.inr hp
            obtain ⟨out, hout⟩ := ih _ hlen hbrec
            exact ⟨v.data ++ out, by simp [renderCharsFuel, hc, hv, hout]⟩
          · have hbrec : ∀ p ∈ placeholdersFuel fuel rest,
                (findParam params p).isSome := by
              intro p hp
              apply hb
              simp [placeholdersFuel, hc]
              exact hp
            obtain ⟨out, hout⟩ := ih _ hlrest hbrec
            exact ⟨c :: out, by simp [renderCharsFuel, hc, hout]⟩

/-- Conversely, a successful substitution pass means every placeholder
of the remaining template had a binding. -/
theorem renderCharsFuel_ok_bound (params : List (String × String)) :
    ∀ (fuel : Nat) (l : List Char) (out : List Char),
      renderCharsFuel params fuel l = .ok out →
      ∀ p ∈ placeholdersFuel fuel l, (findParam params p).isSome := by
  intro fuel
  induction fuel with
  | zero =>
      intro l out _ p hp
      cases l <;> simp [placeholdersFuel] at hp
  | succ fuel ih =>
      intro l out h p hp
      cases l with
      | nil => simp [placeholdersFuel] at hp
      | cons c rest =>
          by_cases hc : c = '{'
          · simp [placeholdersFuel, hc] at hp
            cases hfind : findParam params
                (String.mk (rest.takeWhile (fun d => d != '}'))) with
            | none => simp [renderCharsFuel, hc, hfind] at h
            | some v =>
                cases hrec : renderCharsFuel params fuel
                    ((rest.dropWhile (fun d => d != '}')).tail) with
                | error e => simp [renderCharsFuel, hc, hfind, hrec] at h
                | ok out2 =>
                    rcases hp with rfl | hp
                    · rw [hfind]
                      rfl
                    · exact ih _ out2 hrec p hp
          · simp [placeholdersFuel, hc] at hp
            cases hrec : renderCharsFuel params fuel rest with
            | error e => simp [renderCharsFuel, hc, hrec] at h
            | ok out2 => exact ih _ out2 hrec p hp

/-- C7: rendering is strict in both directions — a parameter set that
exactly matches the template's placeholders always renders successfully,
while any placeholder left without a binding, or any supplied key that
matches no placeholder, makes `render` fail (with a `TemplateError`,
the only error the result type carries). -/
theorem render_strict_both_directions (template : String)
    (params : List (String × String)) :
    ((∀ p ∈ placeholders template, (findParam params p).isSome)
      → (∀ kv ∈ params, kv.1 ∈ placeholders template)
      → ∃ s, render template params = .ok s)
    ∧ (∀ p ∈ placeholders template, findParam params p = none
        → ∀ s, render template params ≠ .ok s)
    ∧ (∀ kv ∈ params, kv.1 ∉ placeholders template
        → ∀ s, render template params ≠ .ok s) := by
  refine ⟨?_, ?_, ?_⟩
  · intro h1 h2
    have hfind : extraKeyCheck template params = none := by
      rw [extraKeyCheck, List.find?_eq_none]
      intro kv hkv
      simp [h2 kv hkv]
    obtain ⟨out, hout⟩ := renderCharsFuel_ok params template.data.length
      template.data le_rfl (fun p hp => h1 p hp)
    have hcore : renderCore template params = .ok out := hout
    exact ⟨String.mk out, by simp [render, hfind, hcore]⟩
  · intro p hp hnone s hok
    cases hfind : extraKeyCheck template params with
    | some kv => simp [render, hfind] at hok
    | none =>
        cases hrc : renderCore template params with
        | error e => simp [render, hfind, hrc] at hok
        | ok out =>
            have hs := renderCharsFuel_ok_bound params template.data.length
              template.data out hrc p hp
            rw [hnone] at hs
            simp at hs
  · intro kv hkv hnot s hok
    cases hfind : extraKeyCheck template params with
    | some kv2 => simp [render, hfind] at hok
    | none =>
        rw [extraKeyCheck, List.find?_eq_none] at hfind
        have hkv2 := hfind kv hkv
        simp at hkv2
        exact hnot hkv2

/-- Witness for C7: the status template rendered with its exactly
matching parameter set succeeds. -/
theorem render_strict_both_directions_witness :
    ∃ s, render "/status/{code}" [("code", "503")] = .ok s :=
  (render_strict_both_directions "/status/{code}" [("code", "503")]).1
    (by decide) (by decide)

end Clientry
